import Mathlib

/-!
# RawTherapee: edit callbacks and the CAT02 adaptation interface

A shallow embedding of two headers of the repository.

* `rtgui/editcallbacks.h`: the classes `EditSubscriber` and `EditDataProvider`.
  The inline member functions of the header are translated line by line.
  Member functions that are only declared there (`subscribe`, `unsubscribe`,
  `getCurrSubscriber` and others, whose bodies live in a translation unit that
  is not part of the sources) are not embedded.
* `rtengine/cat02adaptation.h`: the declarations of
  `cat02adaptationAutoCompute` and `cat02adaptation`.  Both functions are
  declarations only, so their embeddings follow the declared signatures and the
  prose specification, again flagged in the doc comments.

Conventions: a C++ `int` is an `Int`; a pointer is an `Option Nat` (an object
identity, `none` for the null pointer); a `std::vector<T*>` is a `List Nat`;
a `float` is an arbitrary type `F`, because none of the properties below
depends on floating-point arithmetic.
-/

/-! ## `rtgui/editcallbacks.h` -/

/-- Modelled from the spec: the enumeration `CursorShape` is declared in
`cursormanager.h`, which is not among the sources.  The only enumerator the
header under study names is `CSHandOpen`; every other enumerator is kept as
`CSOther code`. -/
inductive CursorShape where
  | CSHandOpen
  | CSOther (code : Nat)
  deriving DecidableEq, Repr

/-- The anonymous enumeration of `EditSubscriber` that types the member
`action` (object mode only, ignored in pipette mode). -/
inductive EditSubscriberAction where
  | ES_ACTION_NONE
  | ES_ACTION_DRAGGING
  | ES_ACTION_PICKING
  deriving DecidableEq, Repr

/-- The data members of `class EditSubscriber`.  The types `EditUniqueID`,
`EditType` and `BufferType` come from `editid.h`, which is not among the
sources, and are therefore parameters. -/
structure EditSubscriber (EditUniqueID EditType BufferType : Type) where
  /-- The member `EditUniqueID ID`. -/
  ID : EditUniqueID
  /-- The member `EditType editingType`. -/
  editingType : EditType
  /-- The member `BufferType bufferType`. -/
  bufferType : BufferType
  /-- The member `EditDataProvider *provider`. -/
  provider : Option Nat
  /-- The member `std::vector<Geometry*> visibleGeometry`. -/
  visibleGeometry : List Nat
  /-- The member `std::vector<Geometry*> mouseOverGeometry`. -/
  mouseOverGeometry : List Nat
  /-- The member `action`. -/
  action : EditSubscriberAction

namespace EditSubscriber

variable {EditUniqueID EditType BufferType : Type}

/-- The inline body `return provider;`. -/
def getEditProvider (self : EditSubscriber EditUniqueID EditType BufferType) : Option Nat :=
  self.provider

/-- The inline body `return CSHandOpen;`. -/
def getCursor (_self : EditSubscriber EditUniqueID EditType BufferType) (_objectID : Int) :
    CursorShape :=
  CursorShape.CSHandOpen

/-- The inline body `return false;`. -/
def mouseOver (_self : EditSubscriber EditUniqueID EditType BufferType) (_modifierKey : Int) :
    Bool :=
  false

/-- The inline body `return false;`. -/
def button1Pressed (_self : EditSubscriber EditUniqueID EditType BufferType)
    (_modifierKey : Int) : Bool :=
  false

/-- The inline body `return false;`. -/
def button1Released (_self : EditSubscriber EditUniqueID EditType BufferType) : Bool :=
  false

/-- The inline body `return false;`. -/
def button2Pressed (_self : EditSubscriber EditUniqueID EditType BufferType)
    (_modifierKey : Int) : Bool :=
  false

/-- The inline body `return false;`. -/
def button2Released (_self : EditSubscriber EditUniqueID EditType BufferType) : Bool :=
  false

/-- The inline body `return false;`. -/
def button3Pressed (_self : EditSubscriber EditUniqueID EditType BufferType)
    (_modifierKey : Int) : Bool :=
  false

/-- The inline body `return false;`. -/
def button3Released (_self : EditSubscriber EditUniqueID EditType BufferType) : Bool :=
  false

/-- The inline body `return false;`. -/
def drag1 (_self : EditSubscriber EditUniqueID EditType BufferType) (_modifierKey : Int) :
    Bool :=
  false

/-- The inline body `return false;`. -/
def drag2 (_self : EditSubscriber EditUniqueID EditType BufferType) (_modifierKey : Int) :
    Bool :=
  false

/-- The inline body `return false;`. -/
def drag3 (_self : EditSubscriber EditUniqueID EditType BufferType) (_modifierKey : Int) :
    Bool :=
  false

/-- The inline body `return false;`. -/
def pick1 (_self : EditSubscriber EditUniqueID EditType BufferType) (_picked : Bool) : Bool :=
  false

/-- The inline body `return false;`. -/
def pick2 (_self : EditSubscriber EditUniqueID EditType BufferType) (_picked : Bool) : Bool :=
  false

/-- The inline body `return false;`. -/
def pick3 (_self : EditSubscriber EditUniqueID EditType BufferType) (_picked : Bool) : Bool :=
  false

/-- The inline body `return visibleGeometry;`. -/
def getVisibleGeometry (self : EditSubscriber EditUniqueID EditType BufferType) : List Nat :=
  self.visibleGeometry

/-- The inline body `return mouseOverGeometry;`. -/
def getMouseOverGeometry (self : EditSubscriber EditUniqueID EditType BufferType) : List Nat :=
  self.mouseOverGeometry

end EditSubscriber

/-- The data members of `class EditDataProvider`.  `F` stands for `float` and
`Coord` for `rtengine::Coord` (declared in `coord.h`, not among the sources). -/
structure EditDataProvider (F Coord : Type) where
  /-- The private member `EditSubscriber *currSubscriber`: one pointer. -/
  currSubscriber : Option Nat
  /-- The member `int object`. -/
  object : Int
  /-- The member `float pipetteVal[3]`. -/
  pipetteVal : F × F × F
  /-- The member `posScreen`. -/
  posScreen : Coord
  /-- The member `posImage`. -/
  posImage : Coord
  /-- The member `deltaScreen`. -/
  deltaScreen : Coord
  /-- The member `deltaImage`. -/
  deltaImage : Coord
  /-- The member `deltaPrevScreen`. -/
  deltaPrevScreen : Coord
  /-- The member `deltaPrevImage`. -/
  deltaPrevImage : Coord

namespace EditDataProvider

variable {F Coord : Type}

/-- The inline body `return 8;`. -/
def getPipetteRectSize (_self : EditDataProvider F Coord) : Int :=
  8

end EditDataProvider

/-! ## `rtengine/cat02adaptation.h` -/

namespace rtengine

/-- Modelled from the spec: the class `Imagefloat` is declared in
`imagefloat.h`, which is not among the sources.  The specification describes
the image buffer as "a 2-D grid of floating-point RGB (or Lab) triples"; the
buffer carries its declared width and height next to the grid, stored row by
row. -/
structure Imagefloat (F : Type) where
  /-- The number of columns the buffer declares. -/
  width : Nat
  /-- The number of rows the buffer declares. -/
  height : Nat
  /-- The grid of triples, one list per row. -/
  data : List (List (F × F × F))
  deriving DecidableEq, Repr

namespace Imagefloat

variable {F : Type}

/-- The triple stored at column `x` of row `y`, when the grid has one. -/
def pixel (image : Imagefloat F) (x y : Nat) : Option (F × F × F) :=
  (image.data[y]?).bind (fun row => row[x]?)

/-- The grid agrees with the declared dimensions: `height` rows of `width`
triples each. -/
def wellFormed (image : Imagefloat F) : Bool :=
  decide (image.data.length = image.height) &&
    image.data.all (fun row => decide (row.length = image.width))

end Imagefloat

section Apply

variable {F ProcParams : Type}

/-- Modelled from the spec: the body of `cat02adaptation(Imagefloat *image,
float gain, const procparams::ProcParams &params)` is not among the sources.
The specification says that it "applies a per-pixel colorimetric transform
scaled by gain" to "every pixel" of the buffer, "guided by the full
processing-parameter set", mutating the buffer in place.  The colorimetric
transform itself is not specified and is the parameter `transform`; the
function maps a buffer to the buffer the call leaves behind. -/
def cat02adaptation (transform : ProcParams → F → F × F × F → F × F × F)
    (image : Imagefloat F) (gain : F) (params : ProcParams) : Imagefloat F :=
  { image with data := image.data.map (fun row => row.map (transform params gain)) }

end Apply

section AutoCompute

/-- The five objects a caller passes to `cat02adaptationAutoCompute`, in the
order of the declaration.  Their types come from `imagesource.h` and
`procparams.h`, which are not among the sources, and are parameters. -/
structure AutoComputeArgs (ImageSource CAT02AdaptationParams WBParams ToneCurveParams
    RAWParams : Type) where
  /-- The object behind `ImageSource *imgsrc`. -/
  imgsrc : ImageSource
  /-- The object behind `procparams::CAT02AdaptationParams &cat02Param`. -/
  cat02Param : CAT02AdaptationParams
  /-- The object behind `const procparams::WBParams &wbparam`. -/
  wbparam : WBParams
  /-- The object behind `const procparams::ToneCurveParams &toneparam`. -/
  toneparam : ToneCurveParams
  /-- The object behind `const procparams::RAWParams &rawparam`. -/
  rawparam : RAWParams
  deriving DecidableEq, Repr

variable {ImageSource CAT02AdaptationParams WBParams ToneCurveParams RAWParams : Type}

/-- Modelled from the spec: the body of `cat02adaptationAutoCompute` is not
among the sources.  Its declaration returns `void`, takes the image source by
non-const pointer, the adaptation parameters by non-const reference and the
white-balance, tone-curve and raw parameters by const reference; the
specification says that it "writes the derived gain/coefficients into the
adaptation-parameter struct".  The derivation is not specified and is the
parameter `derive`, which reads all five objects and yields the objects the two
non-const arguments refer to after the call.  The result pairs the returned
value (none) with the five objects after the call. -/
def cat02adaptationAutoCompute
    (derive : ImageSource → CAT02AdaptationParams → WBParams → ToneCurveParams → RAWParams →
      ImageSource × CAT02AdaptationParams)
    (args : AutoComputeArgs ImageSource CAT02AdaptationParams WBParams ToneCurveParams
      RAWParams) :
    Unit × AutoComputeArgs ImageSource CAT02AdaptationParams WBParams ToneCurveParams
      RAWParams :=
  let derived := derive args.imgsrc args.cat02Param args.wbparam args.toneparam args.rawparam
  ((), { args with imgsrc := derived.1, cat02Param := derived.2 })

end AutoCompute

end rtengine

/-! ## Properties of `rtgui/editcallbacks.h` -/

/-- C5: every default event handler of `EditSubscriber` reports that the
preview does not have to be redrawn: for every subscriber state, every
`modifierKey` and every value of `picked`, the base implementations of
`mouseOver`, `button1Pressed`, `button2Pressed`, `button3Pressed`,
`button1Released`, `button2Released`, `button3Released`, `drag1`, `drag2`,
`drag3`, `pick1`, `pick2` and `pick3` return `false`. -/
theorem EditSubscriber.default_handlers_return_false {EditUniqueID EditType BufferType : Type}
    (self : EditSubscriber EditUniqueID EditType BufferType) (modifierKey : Int)
    (picked : Bool) :
    self.mouseOver modifierKey = false ∧
    self.button1Pressed modifierKey = false ∧
    self.button2Pressed modifierKey = false ∧
    self.button3Pressed modifierKey = false ∧
    self.button1Released = false ∧
    self.button2Released = false ∧
    self.button3Released = false ∧
    self.drag1 modifierKey = false ∧
    self.drag2 modifierKey = false ∧
    self.drag3 modifierKey = false ∧
    self.pick1 picked = false ∧
    self.pick2 picked = false ∧
    self.pick3 picked = false :=
  ⟨rfl, rfl, rfl, rfl, rfl, rfl, rfl, rfl, rfl, rfl, rfl, rfl, rfl⟩

/-- C6: the default cursor shown above handles is the open hand: for every
subscriber state and every `objectID`, zero and negative values included, the
base `EditSubscriber::getCursor` returns `CSHandOpen`. -/
theorem EditSubscriber.getCursor_eq_CSHandOpen {EditUniqueID EditType BufferType : Type}
    (self : EditSubscriber EditUniqueID EditType BufferType) (objectID : Int) :
    self.getCursor objectID = CursorShape.CSHandOpen :=
  rfl

/-! ## Properties of `rtengine/cat02adaptation.h` -/

namespace rtengine

/-- Reading a triple of the adapted buffer is reading the triple of the
original buffer and transforming it. -/
theorem cat02adaptation_pixel {F ProcParams : Type}
    (transform : ProcParams → F → F × F × F → F × F × F) (image : Imagefloat F) (gain : F)
    (params : ProcParams) (x y : Nat) :
    (cat02adaptation transform image gain params).pixel x y =
      (image.pixel x y).map (transform params gain) := by
  unfold cat02adaptation Imagefloat.pixel
  simp only [List.getElem?_map]
  cases image.data[y]? with
  | none => rfl
  | some row => simp [List.getElem?_map]

/-- The adapted buffer agrees with its declared dimensions exactly when the
original buffer does. -/
theorem cat02adaptation_wellFormed {F ProcParams : Type}
    (transform : ProcParams → F → F × F × F → F × F × F) (image : Imagefloat F) (gain : F)
    (params : ProcParams) :
    (cat02adaptation transform image gain params).wellFormed = image.wellFormed := by
  unfold cat02adaptation Imagefloat.wellFormed
  simp [List.all_map, Function.comp_def]

/-- C2: `cat02adaptation` leaves the buffer dimensions unchanged and processes
every pixel: for every image, gain and parameter set, the image after the call
declares the same width and height, its grid has the same number of rows, the
grid matches the declared dimensions exactly when it did before, and at every
position of the grid the triple after the call is the transform of the triple
before the call (positions outside the grid stay outside). -/
theorem cat02adaptation_dimensions {F ProcParams : Type}
    (transform : ProcParams → F → F × F × F → F × F × F) (image : Imagefloat F) (gain : F)
    (params : ProcParams) :
    (cat02adaptation transform image gain params).width = image.width ∧
    (cat02adaptation transform image gain params).height = image.height ∧
    (cat02adaptation transform image gain params).data.length = image.data.length ∧
    (cat02adaptation transform image gain params).wellFormed = image.wellFormed ∧
    ∀ x y : Nat, (cat02adaptation transform image gain params).pixel x y =
      (image.pixel x y).map (transform params gain) :=
  ⟨rfl, rfl, by simp [cat02adaptation], cat02adaptation_wellFormed transform image gain params,
    cat02adaptation_pixel transform image gain params⟩

/-- C3: `cat02adaptationAutoCompute` returns no value and its only effect on
a parameter struct is on the CAT02 adaptation-parameter struct: for every
input, the white-balance, tone-curve and raw-decode parameter structs are the
same after the call as before it, and the adaptation-parameter struct holds the
result derived from the inputs. -/
theorem cat02adaptationAutoCompute_frame
    {ImageSource CAT02AdaptationParams WBParams ToneCurveParams RAWParams : Type}
    (derive : ImageSource → CAT02AdaptationParams → WBParams → ToneCurveParams → RAWParams →
      ImageSource × CAT02AdaptationParams)
    (args : AutoComputeArgs ImageSource CAT02AdaptationParams WBParams ToneCurveParams
      RAWParams) :
    (cat02adaptationAutoCompute derive args).1 = () ∧
    (cat02adaptationAutoCompute derive args).2.wbparam = args.wbparam ∧
    (cat02adaptationAutoCompute derive args).2.toneparam = args.toneparam ∧
    (cat02adaptationAutoCompute derive args).2.rawparam = args.rawparam ∧
    (cat02adaptationAutoCompute derive args).2.cat02Param =
      (derive args.imgsrc args.cat02Param args.wbparam args.toneparam args.rawparam).2 :=
  ⟨rfl, rfl, rfl, rfl, rfl⟩

end rtengine
